import Mathlib

/-
Shallow embedding of go/vt/tabletserver/rowcache_invalidator.go.

The RowcacheInvalidator tails a binlog event stream and invalidates the
rowcache.  Its mutable state (tracked GTID, lag gauge, the process-wide
internalErrors counters "Invalidation" and "Panic") is modelled as an
explicit RCIState record threaded through the functions.  Observable
actions (log calls, cache-collaborator calls, sleeps, stream opens) are
recorded in an Effect trace.  A Go panic raised by a cache-collaborator
call is modelled as a CallResult value carrying the recovered panic
value, so that the recover-based boundaries (handleInvalidationError in
processEvent, the deferred recover in run) can be expressed as total
functions.
-/

namespace RCI

/-- A raw primary-key column value as it arrives in a binlog event.
Modelled from the spec: value decoding (sqltypes.BuildValue) is an
external library primitive that can fail per-value, so a raw value
either decodes to a canonical typed rendering or fails with an error. -/
inductive RawVal where
  | good (v : String)
  | bad (desc : String)
deriving Repr, DecidableEq

/-- Modelled from the spec: sqltypes.BuildValue decodes one raw column
value into a typed value, failing per-value. The repository file for
sqltypes is not under src, so the decoder is modelled abstractly: a
good raw value yields its canonical rendering, a bad one fails. -/
def buildValue : RawVal → Except String String
  | RawVal.good v => Except.ok v
  | RawVal.bad d => Except.error d

def RawVal.isGood : RawVal → Bool
  | RawVal.good _ => true
  | RawVal.bad _ => false

def RawVal.text : RawVal → String
  | RawVal.good v => v
  | RawVal.bad _ => ""

/-- Modelled from the spec: buildKey concatenates the canonical textual
representation of each typed value of one primary-key tuple with a
fixed unambiguous separator (a control character); an empty tuple
yields the empty string, which callers treat as no key. The repository
file defining buildKey is not under src. -/
def buildKey (vals : List String) : String :=
  String.intercalate "\x01" vals

/-- One binlog stream event (blproto.StreamEvent), with the fields the
invalidator reads: Category, Sql, TableName, PKValues, GTIDField.Value
and Timestamp. -/
structure StreamEvent where
  category : String
  sql : String
  tableName : String
  pkValues : List (List RawVal)
  gtidField : String
  timestamp : Int
deriving Repr, DecidableEq

/-- A Go panic value recovered at a boundary: either a TabletError (the
recognized application-level error) or any other value. -/
inductive PanicValue where
  | tabletError (msg : String)
  | other (msg : String)
deriving Repr, DecidableEq

/-- Outcome of one cache-collaborator call: it returns normally or it
raises a panic value. -/
inductive CallResult where
  | ok
  | raised (p : PanicValue)
deriving Repr, DecidableEq

def CallResult.fault : CallResult → Option PanicValue
  | CallResult.ok => none
  | CallResult.raised p => some p

/-- Modelled from the spec: the cache collaborator (QueryEngine) with
the three invalidation entry points the invalidator calls. Each call
either returns or panics; the QueryEngine internals are not under src. -/
structure QueryEngine where
  invalidateForDDL : String → CallResult
  invalidateForDml : String → List String → CallResult
  invalidateForUnrecognized : String → CallResult

/-- Observable actions of the invalidator: log lines, collaborator
calls, the retry sleep and the stream opens of the run loop. -/
inductive Effect where
  | logInfo (msg : String)
  | logError (msg : String)
  | logEventError (event : StreamEvent) (msg : String)
  | logStackTrace (event : StreamEvent) (msg : String)
  | invalidateForDDL (sql : String)
  | invalidateForDml (table : String) (keys : List String)
  | invalidateForUnrecognized (sql : String)
  | sleepSeconds (n : Nat)
  | openStream (start : String)
deriving Repr, DecidableEq

def Effect.isDmlCall : Effect → Bool
  | Effect.invalidateForDml _ _ => true
  | _ => false

/-- The gtid values carried by the openStream effects of a trace. -/
def openCalls (effs : List Effect) : List String :=
  effs.filterMap fun e =>
    match e with
    | Effect.openStream g => some g
    | _ => none

/-- The mutable state of a RowcacheInvalidator: the tracked GTID, the
lagSeconds gauge, and the two internalErrors counters it touches. -/
structure RCIState where
  gtid : String
  lagSeconds : Int
  invalidationCount : Nat
  panicCount : Nat
deriving Repr, DecidableEq

def GetGTID (s : RCIState) : String := s.gtid

def SetGTID (s : RCIState) (g : String) : RCIState := { s with gtid := g }

/-- Result of dispatching one event before the deferred recover runs:
the state after the handler, the effects emitted, the panic value in
flight (none if the handler returned normally) and whether the event
hit the default (unknown-category) branch, which returns early. -/
structure DispatchResult where
  state : RCIState
  effects : List Effect
  fault : Option PanicValue
  unknown : Bool
deriving Repr

/-- The inner tuple loop of handleDmlEvent: sqlTypeKeys is truncated to
length zero at the top of each iteration (sqlTypeKeys = sqlTypeKeys[:0]
in the source) and each decoded value is appended. A decode failure
aborts with none. -/
def decodeTupleInto : List RawVal → List String → Option (List String)
  | [], buf => some buf
  | v :: rest, buf =>
    match buildValue v with
    | Except.error _ => none
    | Except.ok k => decodeTupleInto rest (buf ++ [k])

/-- The outer row loop of handleDmlEvent: threads the reused
sqlTypeKeys buffer across tuples, truncating it (take 0) before each
tuple, builds the invalidation key of each tuple and collects the
non-empty keys in order. Returns none when any value fails to decode. -/
def dmlLoop : List (List RawVal) → List String → List String → Option (List String)
  | [], _, keys => some keys
  | t :: rest, sqlTypeKeys, keys =>
    match decodeTupleInto t (sqlTypeKeys.take 0) with
    | none => none
    | some buf =>
      let invalidateKey := buildKey buf
      dmlLoop rest buf (if invalidateKey = "" then keys else keys ++ [invalidateKey])

/-- The invalidation key of one tuple from its own values alone. -/
def tupleKey (t : List RawVal) : String := buildKey (t.map RawVal.text)

/-- The key list handed to InvalidateForDml: per-tuple keys in row
order, empty keys filtered out. -/
def dmlKeys (tuples : List (List RawVal)) : List String :=
  (tuples.map tupleKey).filter (fun k => k ≠ "")

/-- All primary-key values of all tuples decode successfully. -/
def allOk (tuples : List (List RawVal)) : Bool :=
  tuples.all fun t => t.all RawVal.isGood

/-- handleDmlEvent: decode every primary-key tuple (a decode failure
logs with the event, bumps the Invalidation counter and returns without
any collaborator call), then make the single InvalidateForDml call with
the collected keys. -/
def handleDmlEvent (qe : QueryEngine) (event : StreamEvent) (s : RCIState) : DispatchResult :=
  match dmlLoop event.pkValues [] [] with
  | none =>
    ⟨{ s with invalidationCount := s.invalidationCount + 1 },
     [Effect.logEventError event "Error building invalidation key"], none, false⟩
  | some keys =>
    ⟨s, [Effect.invalidateForDml event.tableName keys],
     (qe.invalidateForDml event.tableName keys).fault, false⟩

/-- The category switch of processEvent, before the deferred
handleInvalidationError and the trailing lag update. -/
def dispatchEvent (qe : QueryEngine) (event : StreamEvent) (s : RCIState) : DispatchResult :=
  if event.category = "DDL" then
    ⟨s, [Effect.logInfo ("DDL invalidation: " ++ event.sql), Effect.invalidateForDDL event.sql],
     (qe.invalidateForDDL event.sql).fault, false⟩
  else if event.category = "DML" then
    handleDmlEvent qe event s
  else if event.category = "ERR" then
    ⟨s, [Effect.invalidateForUnrecognized event.sql],
     (qe.invalidateForUnrecognized event.sql).fault, false⟩
  else if event.category = "POS" then
    ⟨SetGTID s event.gtidField, [], none, false⟩
  else
    ⟨{ s with invalidationCount := s.invalidationCount + 1 },
     [Effect.logEventError event "unknown event"], none, true⟩

/-- handleInvalidationError: the deferred recover of processEvent. A
recovered TabletError is logged with the event and counted under
Invalidation; any other recovered value is logged with a stack trace
and counted under Panic; no panic in flight is a no-op. -/
def handleInvalidationError (event : StreamEvent) (x : Option PanicValue) (s : RCIState) :
    RCIState × List Effect :=
  match x with
  | none => (s, [])
  | some (PanicValue.other m) =>
    ({ s with panicCount := s.panicCount + 1 },
     [Effect.logStackTrace event ("Uncaught panic: " ++ m)])
  | some (PanicValue.tabletError m) =>
    ({ s with invalidationCount := s.invalidationCount + 1 },
     [Effect.logEventError event m])

/-- processEvent: dispatch the event under the deferred
handleInvalidationError boundary; when the switch completes without a
panic and the category was recognized, set lagSeconds to now minus the
event timestamp. Always returns (the fault never propagates). -/
def processEvent (qe : QueryEngine) (now : Int) (event : StreamEvent) (s : RCIState) :
    RCIState × List Effect :=
  let d := dispatchEvent qe event s
  match d.fault with
  | some x =>
    let r := handleInvalidationError event (some x) d.state
    (r.1, d.effects ++ r.2)
  | none =>
    if d.unknown then (d.state, d.effects)
    else ({ d.state with lagSeconds := now - event.timestamp }, d.effects)

/-- Feed a list of stream events to processEvent in order, as the
Stream callback of run does, accumulating state and effects. -/
def processEvents (qe : QueryEngine) (now : Int) :
    List StreamEvent → RCIState → RCIState × List Effect
  | [], s => (s, [])
  | e :: rest, s =>
    let r := processEvent qe now e s
    let r2 := processEvents qe now rest r.1
    (r2.1, r.2 ++ r2.2)

/-- One streaming session as the external EventStreamer delivers it:
the events handed to the callback, then the return value of Stream
(none models the nil error of a clean Close-induced termination, some e
models a stream error). -/
structure SessionOutcome where
  events : List StreamEvent
  streamErr : Option String
deriving Repr, DecidableEq

/-- Whether the run loop has exited when the session script ran out:
stopped means it broke out of the loop (clean termination), pending
means every scripted session errored and the loop would keep retrying. -/
inductive LoopExit where
  | stopped
  | pending
deriving Repr, DecidableEq

/-- Result of the run loop over a finite script of sessions. -/
structure RunResult where
  state : RCIState
  trace : List Effect
  exit : LoopExit
deriving Repr, DecidableEq

/-- run: each iteration opens the stream at GetGTID (recorded as an
openStream effect), dispatches every event of the session, then
inspects the Stream return value: nil breaks out of the loop, an error
is logged, the Invalidation counter bumped, one second slept, and the
loop retries with the current tracked state. -/
def run (qe : QueryEngine) (now : Int) : List SessionOutcome → RCIState → RunResult
  | [], s => ⟨s, [], LoopExit.pending⟩
  | sess :: rest, s =>
    let r := processEvents qe now sess.events s
    match sess.streamErr with
    | none => ⟨r.1, Effect.openStream (GetGTID s) :: r.2, LoopExit.stopped⟩
    | some e =>
      let s2 := { r.1 with invalidationCount := r.1.invalidationCount + 1 }
      let rr := run qe now rest s2
      ⟨rr.state,
       Effect.openStream (GetGTID s) :: r.2
         ++ Effect.logError ("binlog.ServeUpdateStream returned err " ++ e
              ++ ", retrying in 1 second.")
         :: Effect.sleepSeconds 1 :: rr.trace,
       rr.exit⟩

/-- The master status row Open queries, reduced to the field the
invalidator uses: MasterLogGTIDField.Value. -/
structure MasterStatus where
  gtid : String
deriving Repr, DecidableEq

/-- The mysqld handle as Open consumes it: the MasterStatus query
(which can fail) and the configured binlog path. -/
structure Mysqld where
  masterStatus : Except String MasterStatus
  binLogPath : String
deriving Repr

/-- Outcome of a call to Open: a FATAL TabletError panic, the no-op of
a second Open while the worker is running (svm.Go returned false), or a
freshly launched worker seeded with the captured start position. -/
inductive OpenOutcome where
  | fatalPanic (msg : String)
  | alreadyRunning
  | started (startGTID : String)
deriving Repr, DecidableEq

def OpenOutcome.launched : OpenOutcome → Bool
  | OpenOutcome.started _ => true
  | _ => false

/-- Open: query MasterStatus (a failure panics with a FATAL
TabletError), check the binlog path (an empty path panics with a FATAL
TabletError), then hand the worker to svm.Go, which refuses to start a
second one while the service is Running. -/
def Open (running : Bool) (mysqld : Mysqld) : OpenOutcome :=
  match mysqld.masterStatus with
  | Except.error e =>
    OpenOutcome.fatalPanic ("Rowcache invalidator aborting: cannot determine replication position: " ++ e)
  | Except.ok rp =>
    if mysqld.binLogPath = "" then
      OpenOutcome.fatalPanic "Rowcache invalidator aborting: binlog path not specified"
    else if running then OpenOutcome.alreadyRunning
    else OpenOutcome.started rp.gtid

/-- Outcome of a call to Close: the immediate logged return when no
event streamer is active (evs is nil), or the blocking stop of the
active session. -/
inductive CloseOutcome where
  | noop
  | stoppedWorker
deriving Repr, DecidableEq

/-- Close: when evs is nil, log and return at once; otherwise stop the
streamer and block in svm.Stop until the worker exits. -/
def Close (evsActive : Bool) : CloseOutcome :=
  if evsActive then CloseOutcome.stoppedWorker else CloseOutcome.noop

/-- The state the run loop retries with after a stream error: the state
left by the events of the failed session, with the Invalidation counter
bumped by the error handling of the loop. -/
def retryState (qe : QueryEngine) (now : Int) (events : List StreamEvent) (s : RCIState) :
    RCIState :=
  { (processEvents qe now events s).1 with
      invalidationCount := (processEvents qe now events s).1.invalidationCount + 1 }

/-- A cache collaborator whose calls all return normally. -/
def qeOk : QueryEngine :=
  ⟨fun _ => CallResult.ok, fun _ _ => CallResult.ok, fun _ => CallResult.ok⟩

/-- A cache collaborator whose DDL call panics with a TabletError. -/
def qeRaiseTablet : QueryEngine :=
  ⟨fun _ => CallResult.raised (PanicValue.tabletError "terr"),
   fun _ _ => CallResult.ok, fun _ => CallResult.ok⟩

/-- An initial invalidator state for concrete evaluations. -/
def st0 : RCIState := ⟨"pos0", 0, 0, 0⟩

/-- A DML event for table users with two decodable one-column tuples. -/
def evUsers : StreamEvent :=
  ⟨"DML", "", "users", [[RawVal.good "1"], [RawVal.good "2"]], "", 3⟩

/-- A DML event whose second tuple holds a value that fails decoding. -/
def evBadDml : StreamEvent :=
  ⟨"DML", "", "users", [[RawVal.good "1"], [RawVal.bad "oops"]], "", 3⟩

/-- A DDL event. -/
def evDdl : StreamEvent := ⟨"DDL", "alter table t add column x int", "", [], "", 3⟩

/-- A POSITION event carrying a new GTID. -/
def evPos : StreamEvent := ⟨"POS", "", "", [], "gtid42", 3⟩

/-- An event of an unrecognized category. -/
def evOther : StreamEvent := ⟨"XXX", "", "", [], "", 3⟩

/-- A mysqld handle whose MasterStatus query fails. -/
def mysqldDown : Mysqld := ⟨Except.error "query failed", "/bl"⟩

/-- A mysqld handle with no binlog path configured. -/
def mysqldNoPath : Mysqld := ⟨Except.ok ⟨"g0"⟩, ""⟩

/-- A fully configured mysqld handle. -/
def mysqldGood : Mysqld := ⟨Except.ok ⟨"g0"⟩, "/bl"⟩

theorem dispatchEvent_ddl (qe : QueryEngine) (event : StreamEvent) (s : RCIState)
    (hcat : event.category = "DDL") :
    dispatchEvent qe event s =
      ⟨s, [Effect.logInfo ("DDL invalidation: " ++ event.sql), Effect.invalidateForDDL event.sql],
       (qe.invalidateForDDL event.sql).fault, false⟩ := by
  rw [dispatchEvent, if_pos hcat]

theorem dispatchEvent_dml (qe : QueryEngine) (event : StreamEvent) (s : RCIState)
    (hcat : event.category = "DML") :
    dispatchEvent qe event s = handleDmlEvent qe event s := by
  rw [dispatchEvent, if_neg (by rw [hcat]; decide), if_pos hcat]

theorem dispatchEvent_err (qe : QueryEngine) (event : StreamEvent) (s : RCIState)
    (hcat : event.category = "ERR") :
    dispatchEvent qe event s =
      ⟨s, [Effect.invalidateForUnrecognized event.sql],
       (qe.invalidateForUnrecognized event.sql).fault, false⟩ := by
  rw [dispatchEvent, if_neg (by rw [hcat]; decide), if_neg (by rw [hcat]; decide), if_pos hcat]

theorem dispatchEvent_pos (qe : QueryEngine) (event : StreamEvent) (s : RCIState)
    (hcat : event.category = "POS") :
    dispatchEvent qe event s = ⟨SetGTID s event.gtidField, [], none, false⟩ := by
  rw [dispatchEvent, if_neg (by rw [hcat]; decide), if_neg (by rw [hcat]; decide),
    if_neg (by rw [hcat]; decide), if_pos hcat]

theorem dispatchEvent_unknown (qe : QueryEngine) (event : StreamEvent) (s : RCIState)
    (h1 : event.category ≠ "DDL") (h2 : event.category ≠ "DML")
    (h3 : event.category ≠ "ERR") (h4 : event.category ≠ "POS") :
    dispatchEvent qe event s =
      ⟨{ s with invalidationCount := s.invalidationCount + 1 },
       [Effect.logEventError event "unknown event"], none, true⟩ := by
  rw [dispatchEvent, if_neg h1, if_neg h2, if_neg h3, if_neg h4]

theorem decodeTupleInto_ok (t : List RawVal) :
    ∀ buf : List String, t.all RawVal.isGood = true →
      decodeTupleInto t buf = some (buf ++ t.map RawVal.text) := by
  induction t with
  | nil => intro buf _; simp [decodeTupleInto]
  | cons v rest ih =>
    intro buf h
    simp only [List.all_cons, Bool.and_eq_true] at h
    cases v with
    | good w => simp [decodeTupleInto, buildValue, ih _ h.2, RawVal.text]
    | bad d => simp [RawVal.isGood] at h

theorem decodeTupleInto_bad (t : List RawVal) :
    ∀ buf : List String, t.all RawVal.isGood = false →
      decodeTupleInto t buf = none := by
  induction t with
  | nil => intro buf h; simp at h
  | cons v rest ih =>
    intro buf h
    cases v with
    | good w =>
      simp only [List.all_cons, RawVal.isGood, Bool.true_and] at h
      simp [decodeTupleInto, buildValue, ih _ h]
    | bad d => simp [decodeTupleInto, buildValue]

theorem dmlLoop_allOk (tuples : List (List RawVal)) :
    ∀ buf keys : List String, allOk tuples = true →
      dmlLoop tuples buf keys = some (keys ++ dmlKeys tuples) := by
  induction tuples with
  | nil => intro buf keys _; simp [dmlLoop, dmlKeys]
  | cons t rest ih =>
    intro buf keys h
    simp only [allOk, List.all_cons, Bool.and_eq_true] at h
    have hdec : decodeTupleInto t [] = some (t.map RawVal.text) := by
      simpa using decodeTupleInto_ok t [] h.1
    have hrest : allOk rest = true := by simpa [allOk] using h.2
    simp only [dmlLoop, List.take_zero, hdec]
    rw [ih _ _ hrest]
    by_cases hk : buildKey (t.map RawVal.text) = ""
    · simp [hk, dmlKeys, tupleKey, List.filter_cons]
    · simp [hk, dmlKeys, tupleKey, List.filter_cons]

theorem dmlLoop_bad (tuples : List (List RawVal)) :
    ∀ buf keys : List String, allOk tuples = false →
      dmlLoop tuples buf keys = none := by
  induction tuples with
  | nil => intro buf keys h; simp [allOk] at h
  | cons t rest ih =>
    intro buf keys h
    by_cases ht : t.all RawVal.isGood = true
    · have hrest : allOk rest = false := by
        simp only [allOk, List.all_cons, ht, Bool.true_and] at h
        simpa [allOk] using h
      have hdec : decodeTupleInto t [] = some (t.map RawVal.text) := by
        simpa using decodeTupleInto_ok t [] ht
      simp only [dmlLoop, List.take_zero, hdec]
      exact ih _ _ hrest
    · have htf : t.all RawVal.isGood = false := by simpa using ht
      have hdec : decodeTupleInto t [] = none := decodeTupleInto_bad t [] htf
      simp [dmlLoop, List.take_zero, hdec]

theorem dmlLoop_buf (tuples : List (List RawVal)) (buf buf2 keys : List String) :
    dmlLoop tuples buf keys = dmlLoop tuples buf2 keys := by
  cases tuples with
  | nil => rfl
  | cons t rest => simp [dmlLoop, List.take_zero]

theorem openCalls_append (a b : List Effect) :
    openCalls (a ++ b) = openCalls a ++ openCalls b := by
  simp [openCalls]

theorem openCalls_handleInvalidationError (event : StreamEvent) (x : Option PanicValue)
    (s : RCIState) : openCalls (handleInvalidationError event x s).2 = [] := by
  cases x with
  | none => rfl
  | some p => cases p <;> rfl

theorem openCalls_handleDmlEvent (qe : QueryEngine) (event : StreamEvent) (s : RCIState) :
    openCalls (handleDmlEvent qe event s).effects = [] := by
  unfold handleDmlEvent
  cases dmlLoop event.pkValues [] [] <;> rfl

theorem openCalls_dispatchEvent (qe : QueryEngine) (event : StreamEvent) (s : RCIState) :
    openCalls (dispatchEvent qe event s).effects = [] := by
  unfold dispatchEvent
  split_ifs with h1 h2 h3 h4
  · rfl
  · exact openCalls_handleDmlEvent qe event s
  · rfl
  · rfl
  · rfl

theorem openCalls_processEvent (qe : QueryEngine) (now : Int) (event : StreamEvent)
    (s : RCIState) : openCalls (processEvent qe now event s).2 = [] := by
  simp only [processEvent]
  cases hf : (dispatchEvent qe event s).fault with
  | some p =>
    simp [openCalls_append, openCalls_dispatchEvent, openCalls_handleInvalidationError]
  | none =>
    by_cases hu : (dispatchEvent qe event s).unknown = true <;>
      simp [hu, openCalls_dispatchEvent]

theorem openCalls_processEvents (qe : QueryEngine) (now : Int) (events : List StreamEvent) :
    ∀ s : RCIState, openCalls (processEvents qe now events s).2 = [] := by
  induction events with
  | nil => intro s; rfl
  | cons e rest ih =>
    intro s
    simp [processEvents, openCalls_append, openCalls_processEvent, ih]

theorem openCalls_run_cons (qe : QueryEngine) (now : Int) (sess : SessionOutcome)
    (rest : List SessionOutcome) (s : RCIState) :
    (openCalls (run qe now (sess :: rest) s).trace).head? = some (GetGTID s) := by
  simp only [run]
  cases hse : sess.streamErr with
  | none => simp [openCalls, openCalls_processEvents]
  | some e => simp [openCalls, openCalls_append, openCalls_processEvents]

/-- Claim C1: any panic raised while processEvent handles an event is
recovered at the dispatch boundary. A recovered TabletError is logged
with the event and counted under the Invalidation internal-error
counter; any other recovered value is logged with a stack trace and
counted under the Panic counter. In both cases processEvent returns
normally, so the stream callback never propagates the fault. -/
theorem claim_c1 (qe : QueryEngine) (now : Int) (event : StreamEvent) (s : RCIState)
    (pv : PanicValue) (h : (dispatchEvent qe event s).fault = some pv) :
    processEvent qe now event s =
      match pv with
      | PanicValue.tabletError m =>
        ({ (dispatchEvent qe event s).state with
             invalidationCount := (dispatchEvent qe event s).state.invalidationCount + 1 },
         (dispatchEvent qe event s).effects ++ [Effect.logEventError event m])
      | PanicValue.other m =>
        ({ (dispatchEvent qe event s).state with
             panicCount := (dispatchEvent qe event s).state.panicCount + 1 },
         (dispatchEvent qe event s).effects ++
           [Effect.logStackTrace event ("Uncaught panic: " ++ m)]) := by
  simp only [processEvent, h]
  cases pv <;> simp [handleInvalidationError]

/-- Witness for C1: a DDL event whose collaborator call panics with a
TabletError is recovered, counted under Invalidation and logged, and
processEvent returns the evaluated pair. -/
theorem claim_c1_witness :
    processEvent qeRaiseTablet 7 evDdl st0 =
      (⟨"pos0", 0, 1, 0⟩,
       [Effect.logInfo "DDL invalidation: alter table t add column x int",
        Effect.invalidateForDDL "alter table t add column x int",
        Effect.logEventError evDdl "terr"]) := by
  rw [claim_c1 qeRaiseTablet 7 evDdl st0 (PanicValue.tabletError "terr") rfl]
  decide

/-- Claim C2: for a DML event whose primary-key values all decode,
exactly one InvalidateForDml call is made, on the event table, with the
non-empty per-tuple keys in the original row order; the call is made
even when the key set is empty. -/
theorem claim_c2 (qe : QueryEngine) (now : Int) (event : StreamEvent) (s : RCIState)
    (hcat : event.category = "DML") (hok : allOk event.pkValues = true) :
    (processEvent qe now event s).2.filter Effect.isDmlCall =
      [Effect.invalidateForDml event.tableName (dmlKeys event.pkValues)] := by
  have hloop : dmlLoop event.pkValues [] [] = some (dmlKeys event.pkValues) := by
    simpa using dmlLoop_allOk event.pkValues [] [] hok
  have hd : dispatchEvent qe event s =
      ⟨s, [Effect.invalidateForDml event.tableName (dmlKeys event.pkValues)],
       (qe.invalidateForDml event.tableName (dmlKeys event.pkValues)).fault, false⟩ := by
    rw [dispatchEvent_dml qe event s hcat]
    unfold handleDmlEvent
    rw [hloop]
  simp only [processEvent, hd]
  cases hf : (qe.invalidateForDml event.tableName (dmlKeys event.pkValues)).fault with
  | none => simp [Effect.isDmlCall]
  | some p => cases p <;> simp [handleInvalidationError, Effect.isDmlCall]

/-- Witness for C2: the spec example, table users with tuples [1] and
[2], makes exactly the one call invalidateForDML(users, [key 1, key 2])
in row order. -/
theorem claim_c2_witness :
    (processEvent qeOk 10 evUsers st0).2.filter Effect.isDmlCall =
      [Effect.invalidateForDml "users" ["1", "2"]] := by
  rw [claim_c2 qeOk 10 evUsers st0 rfl (by decide)]
  decide

/-- Claim C3: for a DML event in which some raw primary-key value fails
to decode, the whole event is aborted: the error is logged with the
event, the Invalidation counter is incremented, handleDmlEvent returns
without a fault, and no InvalidateForDml call is made for any tuple. -/
theorem claim_c3 (qe : QueryEngine) (now : Int) (event : StreamEvent) (s : RCIState)
    (hcat : event.category = "DML") (hbad : allOk event.pkValues = false) :
    handleDmlEvent qe event s =
      ⟨{ s with invalidationCount := s.invalidationCount + 1 },
       [Effect.logEventError event "Error building invalidation key"], none, false⟩ ∧
    ∀ t ks, Effect.invalidateForDml t ks ∉ (processEvent qe now event s).2 := by
  have hloop := dmlLoop_bad event.pkValues [] [] hbad
  have hdml : handleDmlEvent qe event s =
      ⟨{ s with invalidationCount := s.invalidationCount + 1 },
       [Effect.logEventError event "Error building invalidation key"], none, false⟩ := by
    unfold handleDmlEvent
    rw [hloop]
  refine ⟨hdml, ?_⟩
  intro t ks
  simp only [processEvent, dispatchEvent_dml qe event s hcat, hdml]
  simp

/-- Witness for C3: the event with tuples [good 1] and [bad oops] makes
no InvalidateForDml call and bumps the Invalidation counter. -/
theorem claim_c3_witness :
    handleDmlEvent qeOk evBadDml st0 =
      ⟨{ st0 with invalidationCount := st0.invalidationCount + 1 },
       [Effect.logEventError evBadDml "Error building invalidation key"], none, false⟩ ∧
    ∀ t ks, Effect.invalidateForDml t ks ∉ (processEvent qeOk 11 evBadDml st0).2 :=
  claim_c3 qeOk 11 evBadDml st0 rfl (by decide)

/-- Claim C4: every iteration of the run loop opens the stream at the
current tracked position GetGTID; a clean (nil) stream termination
exits the loop permanently with no further open; a stream error is
logged, counted under Invalidation, followed by a one-second sleep, and
the loop retries, the next open starting at the current tracked
position left by the failed session. -/
theorem claim_c4 (qe : QueryEngine) (now : Int) (sess : SessionOutcome)
    (rest : List SessionOutcome) (s : RCIState) :
    (openCalls (run qe now (sess :: rest) s).trace).head? = some (GetGTID s) ∧
    (sess.streamErr = none →
      run qe now (sess :: rest) s =
        ⟨(processEvents qe now sess.events s).1,
         Effect.openStream (GetGTID s) :: (processEvents qe now sess.events s).2,
         LoopExit.stopped⟩) ∧
    (∀ e, sess.streamErr = some e →
      run qe now (sess :: rest) s =
        ⟨(run qe now rest (retryState qe now sess.events s)).state,
         Effect.openStream (GetGTID s) :: (processEvents qe now sess.events s).2
           ++ Effect.logError ("binlog.ServeUpdateStream returned err " ++ e
                ++ ", retrying in 1 second.")
           :: Effect.sleepSeconds 1 :: (run qe now rest (retryState qe now sess.events s)).trace,
         (run qe now rest (retryState qe now sess.events s)).exit⟩ ∧
      (∀ sess2 rest2, rest = sess2 :: rest2 →
        (openCalls (run qe now rest (retryState qe now sess.events s)).trace).head? =
          some (GetGTID (retryState qe now sess.events s)))) := by
  refine ⟨openCalls_run_cons qe now sess rest s, ?_, ?_⟩
  · intro h
    simp [run, h]
  · intro e h
    refine ⟨by simp [run, h, retryState], ?_⟩
    intro sess2 rest2 hr
    subst hr
    exact openCalls_run_cons qe now sess2 rest2 _

/-- Witness for C4: a two-session script in which the first session
delivers a POSITION event and then fails; the first open starts at the
initial position and the retry opens at the position the POSITION event
tracked. -/
theorem claim_c4_witness :
    GetGTID (retryState qeOk 9 [evPos] st0) = "gtid42" ∧
    (openCalls (run qeOk 9 [⟨[evPos], some "neterr"⟩, ⟨[], none⟩] st0).trace).head? =
      some "pos0" ∧
    (openCalls (run qeOk 9 [⟨[], none⟩] (retryState qeOk 9 [evPos] st0)).trace).head? =
      some (GetGTID (retryState qeOk 9 [evPos] st0)) := by
  have h := claim_c4 qeOk 9 ⟨[evPos], some "neterr"⟩ [⟨[], none⟩] st0
  exact ⟨by decide, h.1, (h.2.2 "neterr" rfl).2 ⟨[], none⟩ [] rfl⟩

/-- Claim C5: only a POS event mutates the tracked position, setting it
to the GTID of the event with no cache side effect; every other
category leaves the tracked position unchanged. -/
theorem claim_c5 (qe : QueryEngine) (now : Int) (event : StreamEvent) (s : RCIState) :
    (processEvent qe now event s).1.gtid =
      (if event.category = "POS" then event.gtidField else s.gtid) ∧
    (event.category = "POS" →
      processEvent qe now event s =
        ({ SetGTID s event.gtidField with lagSeconds := now - event.timestamp }, [])) := by
  constructor
  · by_cases h1 : event.category = "DDL"
    · rw [if_neg (by rw [h1]; decide)]
      simp only [processEvent, dispatchEvent_ddl qe event s h1]
      cases hf : (qe.invalidateForDDL event.sql).fault with
      | none => simp
      | some p => cases p <;> simp [handleInvalidationError]
    by_cases h2 : event.category = "DML"
    · rw [if_neg (by rw [h2]; decide)]
      simp only [processEvent, dispatchEvent_dml qe event s h2]
      unfold handleDmlEvent
      cases dmlLoop event.pkValues [] [] with
      | none => simp
      | some keys =>
        cases hf : (qe.invalidateForDml event.tableName keys).fault with
        | none => simp [hf]
        | some p => cases p <;> simp [handleInvalidationError, hf]
    by_cases h3 : event.category = "ERR"
    · rw [if_neg (by rw [h3]; decide)]
      simp only [processEvent, dispatchEvent_err qe event s h3]
      cases hf : (qe.invalidateForUnrecognized event.sql).fault with
      | none => simp
      | some p => cases p <;> simp [handleInvalidationError]
    by_cases h4 : event.category = "POS"
    · rw [if_pos h4]
      simp [processEvent, dispatchEvent_pos qe event s h4, SetGTID]
    · rw [if_neg h4]
      simp [processEvent, dispatchEvent_unknown qe event s h1 h2 h3 h4]
  · intro h4
    simp [processEvent, dispatchEvent_pos qe event s h4]

/-- Witness for C5: the POS event with GTID gtid42 sets the tracked
position to gtid42, with no effect. -/
theorem claim_c5_witness :
    (processEvent qeOk 9 evPos st0).1.gtid =
      (if evPos.category = "POS" then evPos.gtidField else st0.gtid) ∧
    processEvent qeOk 9 evPos st0 =
      ({ SetGTID st0 evPos.gtidField with lagSeconds := 9 - evPos.timestamp }, []) := by
  have h := claim_c5 qeOk 9 evPos st0
  exact ⟨h.1, h.2 rfl⟩

/-- Claim C6: Open panics with a FATAL TabletError and launches no
worker when the MasterStatus query fails or the binlog path is not
configured. -/
theorem claim_c6 (running : Bool) (mysqld : Mysqld)
    (h : (∃ e, mysqld.masterStatus = Except.error e) ∨ mysqld.binLogPath = "") :
    (∃ m, Open running mysqld = OpenOutcome.fatalPanic m) ∧
    (Open running mysqld).launched = false := by
  rcases h with ⟨e, he⟩ | hp
  · constructor
    · exact ⟨"Rowcache invalidator aborting: cannot determine replication position: " ++ e,
        by simp [Open, he]⟩
    · simp [Open, he, OpenOutcome.launched]
  · cases hm : mysqld.masterStatus with
    | error e =>
      constructor
      · exact ⟨"Rowcache invalidator aborting: cannot determine replication position: " ++ e,
          by simp [Open, hm]⟩
      · simp [Open, hm, OpenOutcome.launched]
    | ok rp =>
      constructor
      · exact ⟨"Rowcache invalidator aborting: binlog path not specified",
          by simp [Open, hm, hp]⟩
      · simp [Open, hm, hp, OpenOutcome.launched]

/-- Witness for C6: a handle with an empty binlog path makes Open panic
and launch nothing. -/
theorem claim_c6_witness :
    (∃ m, Open false mysqldNoPath = OpenOutcome.fatalPanic m) ∧
    (Open false mysqldNoPath).launched = false :=
  claim_c6 false mysqldNoPath (Or.inr rfl)

/-- Counterexample for C7 as stated: with the service already Running
but a failing MasterStatus query, Open is not a no-op; it panics, so
already-Running does not by itself make Open an idempotent no-op. -/
theorem claim_c7_counterexample :
    Open true mysqldDown ≠ OpenOutcome.alreadyRunning := by
  decide

/-- Claim C7 (amended): if the service is already Running and the
preliminary checks pass (the MasterStatus query succeeds and the binlog
path is configured), Open logs and returns without launching a second
worker; and Close when already stopped is an immediate no-op. -/
theorem claim_c7 (mysqld : Mysqld) (rp : MasterStatus)
    (hst : mysqld.masterStatus = Except.ok rp) (hbl : mysqld.binLogPath ≠ "") :
    (Open true mysqld = OpenOutcome.alreadyRunning ∧ (Open true mysqld).launched = false) ∧
    Close false = CloseOutcome.noop := by
  refine ⟨?_, rfl⟩
  constructor
  · simp [Open, hst, hbl]
  · simp [Open, hst, hbl, OpenOutcome.launched]

/-- Witness for C7 (amended) on the fully configured handle. -/
theorem claim_c7_witness :
    (Open true mysqldGood = OpenOutcome.alreadyRunning ∧
     (Open true mysqldGood).launched = false) ∧
    Close false = CloseOutcome.noop :=
  claim_c7 mysqldGood ⟨"g0"⟩ rfl (by decide)

/-- Counterexample for C8 as stated: for a DDL event, a recognized
category, whose collaborator call panics, the deferred recover returns
before the lag update runs, so lagSeconds stays 0 instead of being set
to now minus the event timestamp (7 - 3). -/
theorem claim_c8_counterexample :
    (processEvent qeRaiseTablet 7 evDdl st0).1.lagSeconds = 0 ∧
    (processEvent qeRaiseTablet 7 evDdl st0).1.lagSeconds ≠ 7 - evDdl.timestamp := by
  decide

/-- Claim C8 (amended): an event of an unrecognized category is logged
as an internal error with the Invalidation counter incremented,
performs no invalidation and no position update and skips the lag
update; for every recognized category whose dispatch completes without
a panic in flight, the lag gauge is set to now minus the event
timestamp, with no clamping (when a handler panics, the recover
boundary returns before the lag update runs). -/
theorem claim_c8 (qe : QueryEngine) (now : Int) (event : StreamEvent) (s : RCIState) :
    (event.category ≠ "DDL" → event.category ≠ "DML" → event.category ≠ "ERR" →
     event.category ≠ "POS" →
      processEvent qe now event s =
        ({ s with invalidationCount := s.invalidationCount + 1 },
         [Effect.logEventError event "unknown event"])) ∧
    ((event.category = "DDL" ∨ event.category = "DML" ∨ event.category = "ERR" ∨
      event.category = "POS") →
      (dispatchEvent qe event s).fault = none →
      (processEvent qe now event s).1.lagSeconds = now - event.timestamp) := by
  constructor
  · intro h1 h2 h3 h4
    simp [processEvent, dispatchEvent_unknown qe event s h1 h2 h3 h4]
  · intro hrec hf
    have hunk : (dispatchEvent qe event s).unknown = false := by
      rcases hrec with h | h | h | h
      · simp [dispatchEvent_ddl qe event s h]
      · rw [dispatchEvent_dml qe event s h]
        unfold handleDmlEvent
        cases dmlLoop event.pkValues [] [] <;> rfl
      · simp [dispatchEvent_err qe event s h]
      · simp [dispatchEvent_pos qe event s h]
    simp only [processEvent, hf, hunk]
    simp

/-- Witness for C8: the unknown-category event only logs and counts;
the DDL event at now = 0 yields the negative lag 0 - 3, demonstrating
the absence of clamping. -/
theorem claim_c8_witness :
    processEvent qeOk 0 evOther st0 =
      ({ st0 with invalidationCount := st0.invalidationCount + 1 },
       [Effect.logEventError evOther "unknown event"]) ∧
    (processEvent qeOk 0 evDdl st0).1.lagSeconds = -3 := by
  have h1 := (claim_c8 qeOk 0 evOther st0).1 (by decide) (by decide) (by decide) (by decide)
  have h2 := (claim_c8 qeOk 0 evDdl st0).2 (Or.inl rfl) (by decide)
  refine ⟨h1, ?_⟩
  rw [h2]
  decide

/-- Claim C9: a DML event with a failing primary-key decode still
updates the lag gauge to now minus the event timestamp, because
handleDmlEvent returns normally after aborting the invalidation and
processEvent falls through to the lag update. -/
theorem claim_c9 (qe : QueryEngine) (now : Int) (event : StreamEvent) (s : RCIState)
    (hcat : event.category = "DML") (hbad : allOk event.pkValues = false) :
    (processEvent qe now event s).1.lagSeconds = now - event.timestamp := by
  have hloop := dmlLoop_bad event.pkValues [] [] hbad
  have hdml : handleDmlEvent qe event s =
      ⟨{ s with invalidationCount := s.invalidationCount + 1 },
       [Effect.logEventError event "Error building invalidation key"], none, false⟩ := by
    unfold handleDmlEvent
    rw [hloop]
  simp [processEvent, dispatchEvent_dml qe event s hcat, hdml]

/-- Witness for C9: the aborted DML event at now = 11 still sets the
lag gauge to 11 - 3. -/
theorem claim_c9_witness :
    (processEvent qeOk 11 evBadDml st0).1.lagSeconds = 8 := by
  rw [claim_c9 qeOk 11 evBadDml st0 rfl (by decide)]
  decide

/-- Claim C10: the key built for each tuple depends only on the tuple
itself: the reused buffer is truncated before each tuple, so the loop
result is independent of any buffer contents left by earlier tuples,
and under successful decoding each collected key is the key of the
values of its own tuple. -/
theorem claim_c10 (tuples : List (List RawVal)) (buf keys : List String) :
    dmlLoop tuples buf keys = dmlLoop tuples [] keys ∧
    (allOk tuples = true → dmlLoop tuples buf [] = some (dmlKeys tuples)) := by
  refine ⟨dmlLoop_buf tuples buf [] keys, ?_⟩
  intro h
  simpa using dmlLoop_allOk tuples buf [] h

/-- Witness for C10: with a stale buffer entry left in scope, the loop
still yields exactly the per-tuple keys a and b. -/
theorem claim_c10_witness :
    dmlLoop [[RawVal.good "a"], [RawVal.good "b"]] ["stale"] [] = some ["a", "b"] := by
  rw [(claim_c10 [[RawVal.good "a"], [RawVal.good "b"]] ["stale"] []).2 (by decide)]
  decide

end RCI
